import Mathlib

set_option linter.unusedVariables false

/-!
Verification of the storage-backend abstraction in `daemon/storage.go` of
aybabtme/hyperd.

The file is a shallow embedding of the Go code.  Pure computations become
Lean functions; the mutation of `*apitypes.UserVolume` becomes explicit
value passing; Go's `(T, error)` return shape becomes `Except Err T`.

External collaborators (the overlay mount helper, the raw-block image
helper, the file-copy routine, `os.MkdirAll`, `syscall.Unmount`) are not
part of the repository source; they are modelled from the specification.
Their nondeterministic outcome (success or an environment-dependent error)
is supplied to each embedded operation as an explicit oracle argument of
type `Option Err` (`none` = the collaborator succeeded, `some e` = it
failed with error `e`), and their effect on durable host state is tracked
in an explicit `FS` record of mounts, directories, image attachments and
raw images.
-/

namespace Hyperd

/-- Errors are carried verbatim as strings, mirroring Go `error` values
that the code propagates without wrapping. -/
abbrev Err := String

/-- The fields of `runv.VolumeDescription` (external type) that
`daemon/storage.go` sets: `Name`, `Source`, `Fstype`, `Format`,
`ReadOnly`. -/
structure VolumeDescription where
  Name : String
  Source : String
  Fstype : String
  Format : String
  ReadOnly : Bool
deriving Repr, DecidableEq

/-- The fields of `apitypes.UserVolume` (external type) that
`daemon/storage.go` reads (`Name`) and writes (`Source`, `Fstype`,
`Format`).  The Go code mutates the spec in place; the embedding passes
the record by value and returns the updated record. -/
structure UserVolume where
  Name : String
  Source : String
  Fstype : String
  Format : String
deriving Repr, DecidableEq

/-- Durable host state touched by the backends: the set of active union
mounts (paths), the set of directories with the mode they were created
with, the set of raw-block image attachments keyed by
`(baseDir, containerId)`, and the set of created raw images recorded as
`(path, fstype, size)`.  File contents written by the copy routine are
not modelled. -/
structure FS where
  mounts : List String
  dirs : List (String × Nat)
  attachments : List (String × String)
  images : List (String × String × Nat)
deriving Repr, DecidableEq

/-- Modelled from the spec: Go's `path/filepath.Join` (standard library,
not in src/), restricted to joining two components with a separator;
empty components are dropped, as in Go. -/
def joinPath (a b : String) : String :=
  if a = "" then b else if b = "" then a else a ++ "/" ++ b

/-- The path `<sharedDir>/<id>/rootfs` at which the union-mount helper
places a container's union filesystem and at which the overlay backend
unmounts it. -/
def rootfsPath (sharedDir id : String) : String :=
  joinPath (joinPath sharedDir id) "rootfs"

/-- Modelled from the spec: `syscall.Unmount(path, 0)` (OS, not in src/).
If `path` is mounted it is removed from the mount table and the call
succeeds; otherwise the mount table is unchanged and the call fails with
an already-unmounted style error, which the spec says the overlay backend
does not suppress. -/
def syscallUnmount (path : String) (fs : FS) : Except Err Unit × FS :=
  if path ∈ fs.mounts then
    (.ok (), { fs with mounts := fs.mounts.erase path })
  else
    (.error ("invalid argument: " ++ path ++ " is not mounted"), fs)

/-- Modelled from the spec: `os.MkdirAll(path, perm)` (standard library,
not in src/).  The oracle `res` is the environmental outcome.  On success
the directory is created with mode `perm` if absent; if it already exists
the call succeeds without changing the recorded mode.  On failure the
state is unchanged. -/
def mkdirAll (res : Option Err) (path : String) (perm : Nat) (fs : FS) :
    Except Err Unit × FS :=
  match res with
  | some e => (.error e, fs)
  | none =>
    if (fs.dirs.lookup path).isSome then (.ok (), fs)
    else (.ok (), { fs with dirs := (path, perm) :: fs.dirs })

/-- Modelled from the spec: `overlay.MountContainerToSharedDir` (package
`storage/overlay`, not in src/).  On success it mounts the container's
union filesystem at `<sharedDir>/<mountId>/rootfs` and returns the mount
point; on failure it leaves the mount table unchanged.  The oracle `res`
supplies the outcome. -/
def MountContainerToSharedDir (res : Option Err)
    (mountId rootDir sharedDir extraOpts : String) (readonly : Bool)
    (fs : FS) : Except Err String × FS :=
  match res with
  | some e => (.error e, fs)
  | none => (.ok (rootfsPath sharedDir mountId),
             { fs with mounts := rootfsPath sharedDir mountId :: fs.mounts })

/-- Modelled from the spec: `storage.FsInjectFile` (package `storage`,
not in src/), the file-copy routine operating on an already-mounted tree.
It does not change mount or image state; the oracle `res` supplies its
outcome. -/
def FsInjectFile (res : Option Err) (mountId target baseDir : String)
    (perm uid gid : Nat) : Except Err Unit :=
  match res with
  | some e => .error e
  | none => .ok ()

/-- Modelled from the spec: `rawblock.GetImage` (package
`storage/graphdriver/rawblock`, not in src/): attaches the block image
named `mountId` from `blocksDir` as a temporary host-visible mount keyed
by `(baseDir, mountId)`.  On failure the state is unchanged. -/
def GetImage (res : Option Err) (blocksDir baseDir mountId fstype extraOpts : String)
    (uid gid : Nat) (fs : FS) : Except Err Unit × FS :=
  match res with
  | some e => (.error e, fs)
  | none => (.ok (), { fs with attachments := (baseDir, mountId) :: fs.attachments })

/-- Modelled from the spec: `rawblock.PutImage` (not in src/): detaches
the attachment keyed by `(baseDir, mountId)`, releasing it even when the
call reports an environmental error (oracle `res`). -/
def PutImage (res : Option Err) (baseDir mountId : String) (fs : FS) :
    Except Err Unit × FS :=
  ((match res with | some e => Except.error e | none => Except.ok ()),
   { fs with attachments := fs.attachments.erase (baseDir, mountId) })

/-- Modelled from the spec: `rawblock.CreateBlock` (not in src/): creates
and formats a fresh raw image of the given size at `path` with filesystem
`fstype`.  On failure the state is unchanged. -/
def CreateBlock (res : Option Err) (path fstype extraOpts : String) (size : Nat)
    (fs : FS) : Except Err Unit × FS :=
  match res with
  | some e => (.error e, fs)
  | none => (.ok (), { fs with images := (path, fstype, size) :: fs.images })

/-- Modelled from the spec: `storage.DEFAULT_DM_VOL_SIZE` (not in src/),
the fixed default raw-volume size.  The concrete value is representative;
the claims only depend on it being one fixed constant. -/
def DEFAULT_DM_VOL_SIZE : Nat := 2 * 1024 * 1024 * 1024

/-- Modelled from the spec: `utils.HYPER_ROOT` (not in src/), the
daemon's storage root.  The concrete value is representative. -/
def HYPER_ROOT : String := "/var/lib/hyper"

/-- `OverlayFsStorage` from `daemon/storage.go`. -/
structure OverlayFsStorage where
  rootPath : String
deriving Repr, DecidableEq

/-- `RawBlockStorage` from `daemon/storage.go`. -/
structure RawBlockStorage where
  rootPath : String
deriving Repr, DecidableEq

/-- The `Storage` interface value produced by the registry: one of the
two concrete backends. -/
inductive Storage where
  | overlay (o : OverlayFsStorage)
  | rawblock (s : RawBlockStorage)
deriving Repr, DecidableEq

/-- `OverlayFsStorage.Type` (Go method `Type()`; `Type` is reserved in
Lean, hence `driverType`). -/
def OverlayFsStorage.driverType (o : OverlayFsStorage) : String := "overlay"

/-- `OverlayFsStorage.RootPath`. -/
def OverlayFsStorage.RootPath (o : OverlayFsStorage) : String := o.rootPath

/-- `RawBlockStorage.Type` (Go method `Type()`). -/
def RawBlockStorage.driverType (s : RawBlockStorage) : String := "rawblock"

/-- `RawBlockStorage.RootPath`. -/
def RawBlockStorage.RootPath (s : RawBlockStorage) : String := s.rootPath

/-- Dispatch of the interface method `Type()` over the concrete backend. -/
def Storage.driverType : Storage → String
  | .overlay o => o.driverType
  | .rawblock s => s.driverType

/-- `OverlayFsFactory`: ignores its `sysinfo` and `db` arguments and
always succeeds with an overlay backend rooted at
`<HYPER_ROOT>/overlay`. -/
def OverlayFsFactory : Except Err Storage :=
  .ok (.overlay { rootPath := joinPath HYPER_ROOT "overlay" })

/-- `RawBlockFactory`: ignores its arguments and always succeeds with a
raw-block backend rooted at `<HYPER_ROOT>/rawblock`. -/
def RawBlockFactory : Except Err Storage :=
  .ok (.rawblock { rootPath := joinPath HYPER_ROOT "rawblock" })

/-- `StorageDrivers`: the registry map from driver name to factory. -/
def StorageDrivers : List (String × Except Err Storage) :=
  [("overlay", OverlayFsFactory), ("rawblock", RawBlockFactory)]

/-- `StorageFactory(sysinfo, db)`: looks up `sysinfo.Driver` in the
registry and invokes the factory; with no entry it fails with the
unsupported-driver error carrying the offending driver name. -/
def StorageFactory (driver : String) : Except Err Storage :=
  match StorageDrivers.lookup driver with
  | some factory => factory
  | none => .error ("hyperd can not support docker's backing storage: " ++ driver)

/-- `OverlayFsStorage.Init`: no-op. -/
def OverlayFsStorage.Init (o : OverlayFsStorage) : Except Err Unit := .ok ()

/-- `OverlayFsStorage.CleanUp`: no-op. -/
def OverlayFsStorage.CleanUp (o : OverlayFsStorage) : Except Err Unit := .ok ()

/-- `OverlayFsStorage.PrepareContainer`: calls the union-mount helper
(outcome `mountRes`); on failure returns the helper's error unchanged; on
success builds the descriptor for `"/" + mountId`. -/
def OverlayFsStorage.PrepareContainer (o : OverlayFsStorage) (mountRes : Option Err)
    (mountId sharedDir : String) (readonly : Bool) (fs : FS) :
    Except Err VolumeDescription × FS :=
  match MountContainerToSharedDir mountRes mountId o.RootPath sharedDir "" readonly fs with
  | (.error e, fs') => (.error e, fs')
  | (.ok _, fs') =>
    let containerPath := "/" ++ mountId
    (.ok { Name := containerPath, Source := containerPath,
           Fstype := "dir", Format := "vfs", ReadOnly := readonly }, fs')

/-- `OverlayFsStorage.CleanupContainer`: unmounts
`<sharedDir>/<id>/rootfs` and returns the unmount result verbatim. -/
def OverlayFsStorage.CleanupContainer (o : OverlayFsStorage) (id sharedDir : String)
    (fs : FS) : Except Err Unit × FS :=
  syscallUnmount (rootfsPath sharedDir id) fs

/-- `OverlayFsStorage.InjectFile`: mounts the container (outcome
`mountRes`), on failure returns the error; otherwise copies (outcome
`copyRes`) and, via Go's `defer syscall.Unmount(...)`, unconditionally
unmounts `<baseDir>/<mountId>/rootfs` before returning — the unmount's
own return value is discarded by the `defer` statement, exactly as in the
source. -/
def OverlayFsStorage.InjectFile (o : OverlayFsStorage) (mountRes copyRes : Option Err)
    (mountId target baseDir : String) (perm uid gid : Nat) (fs : FS) :
    Except Err Unit × FS :=
  match MountContainerToSharedDir mountRes mountId o.RootPath baseDir "" false fs with
  | (.error e, fs') => (.error e, fs')
  | (.ok _, fs') =>
    let copyOut := FsInjectFile copyRes mountId target baseDir perm uid gid
    let fs2 := (syscallUnmount (rootfsPath baseDir mountId) fs').2
    (copyOut, fs2)

/-- `OverlayFsStorage.CreateVolume`: calls `storage.CreateVFSVolume`
(external; its outcome — the freshly allocated directory path or an
error — is the oracle `volRes`); on failure the spec is untouched; on
success sets `Source`, `Format`, `Fstype`. -/
def OverlayFsStorage.CreateVolume (o : OverlayFsStorage) (volRes : Except Err String)
    (podId : String) (spec : UserVolume) : Except Err Unit × UserVolume :=
  match volRes with
  | .error e => (.error e, spec)
  | .ok volName =>
    (.ok (), { spec with Source := volName, Format := "vfs", Fstype := "dir" })

/-- `OverlayFsStorage.RemoveVolume`: no-op. -/
def OverlayFsStorage.RemoveVolume (o : OverlayFsStorage) (podId : String)
    (record : List Nat) : Except Err Unit := .ok ()

/-- `RawBlockStorage.Init`: `os.MkdirAll(<root>/volumes, 0700)`,
propagating its error. -/
def RawBlockStorage.Init (s : RawBlockStorage) (mkdirRes : Option Err) (fs : FS) :
    Except Err Unit × FS :=
  match mkdirAll mkdirRes (joinPath s.RootPath "volumes") 0o700 fs with
  | (.error e, fs') => (.error e, fs')
  | (.ok _, fs') => (.ok (), fs')

/-- `RawBlockStorage.CleanUp`: no-op. -/
def RawBlockStorage.CleanUp (s : RawBlockStorage) : Except Err Unit := .ok ()

/-- `RawBlockStorage.PrepareContainer`: computes
`<root>/blocks/<containerId>` and returns the descriptor; no filesystem
call appears in the body, so the state is passed through untouched. -/
def RawBlockStorage.PrepareContainer (s : RawBlockStorage)
    (containerId sharedDir : String) (readonly : Bool) (fs : FS) :
    Except Err VolumeDescription × FS :=
  let devFullName := joinPath (joinPath s.RootPath "blocks") containerId
  (.ok { Name := devFullName, Source := devFullName,
         Fstype := "xfs", Format := "raw", ReadOnly := readonly }, fs)

/-- `RawBlockStorage.CleanupContainer`: no-op. -/
def RawBlockStorage.CleanupContainer (s : RawBlockStorage) (id sharedDir : String)
    (fs : FS) : Except Err Unit × FS := (.ok (), fs)

/-- `RawBlockStorage.InjectFile`: attaches the image (outcome `getRes`),
on failure returns the error; otherwise copies (outcome `copyRes`) and,
via Go's `defer rawblock.PutImage(...)`, unconditionally detaches before
returning — `PutImage`'s return value is discarded by the `defer`
statement, exactly as in the source. -/
def RawBlockStorage.InjectFile (s : RawBlockStorage) (getRes putRes copyRes : Option Err)
    (mountId target baseDir : String) (perm uid gid : Nat) (fs : FS) :
    Except Err Unit × FS :=
  match GetImage getRes (joinPath s.RootPath "blocks") baseDir mountId "xfs" "" uid gid fs with
  | (.error e, fs') => (.error e, fs')
  | (.ok _, fs') =>
    let copyOut := FsInjectFile copyRes mountId target baseDir perm uid gid
    let fs2 := (PutImage putRes baseDir mountId fs').2
    (copyOut, fs2)

/-- `RawBlockStorage.CreateVolume`: computes
`<root>/volumes/<podId>-<spec.Name>`, creates and formats the image via
`rawblock.CreateBlock` (outcome `createRes`) at the fixed default size;
on failure the spec is untouched; on success sets `Source`, `Fstype`,
`Format`. -/
def RawBlockStorage.CreateVolume (s : RawBlockStorage) (createRes : Option Err)
    (podId : String) (spec : UserVolume) (fs : FS) :
    (Except Err Unit × UserVolume) × FS :=
  let block := joinPath (joinPath s.RootPath "volumes") (podId ++ "-" ++ spec.Name)
  match CreateBlock createRes block "xfs" "" DEFAULT_DM_VOL_SIZE fs with
  | (.error e, fs') => ((.error e, spec), fs')
  | (.ok _, fs') =>
    ((.ok (), { spec with Source := block, Fstype := "xfs", Format := "raw" }), fs')

/-- `RawBlockStorage.RemoveVolume`: no-op. -/
def RawBlockStorage.RemoveVolume (s : RawBlockStorage) (podId : String)
    (record : List Nat) : Except Err Unit := .ok ()

/-! ## Theorems -/

/-- Claim C1: for every driver name with a registry entry, `StorageFactory`
returns a backend whose type equals that name; for every name with no
registry entry, it returns no backend and the unsupported-driver error
carrying the offending driver name. -/
theorem storageFactory_select_spec (driver : String) :
    ((StorageDrivers.lookup driver).isSome = true →
      ∃ b, StorageFactory driver = .ok b ∧ b.driverType = driver) ∧
    ((StorageDrivers.lookup driver).isNone = true →
      StorageFactory driver =
        .error ("hyperd can not support docker's backing storage: " ++ driver)) := by
  by_cases h1 : driver = "overlay"
  · subst h1
    refine ⟨fun _ => ⟨Storage.overlay { rootPath := joinPath HYPER_ROOT "overlay" },
      rfl, rfl⟩, fun hn => absurd hn (by decide)⟩
  · by_cases h2 : driver = "rawblock"
    · subst h2
      refine ⟨fun _ => ⟨Storage.rawblock { rootPath := joinPath HYPER_ROOT "rawblock" },
        rfl, rfl⟩, fun hn => absurd hn (by decide)⟩
    · have hov : (driver == "overlay") = false := by
        simp [h1]
      have hrb : (driver == "rawblock") = false := by
        simp [h2]
      have hlk : StorageDrivers.lookup driver = none := by
        simp [StorageDrivers, List.lookup, hov, hrb]
      refine ⟨fun hs => ?_, fun _ => ?_⟩
      · rw [hlk] at hs
        simp at hs
      · simp [StorageFactory, hlk]

/-- Witness for C1: the two registered names select backends of the right
type, and the unregistered name "aufs" yields the unsupported-driver
error. -/
theorem storageFactory_select_spec_witness :
    (∃ b, StorageFactory "overlay" = .ok b ∧ b.driverType = "overlay") ∧
    (∃ b, StorageFactory "rawblock" = .ok b ∧ b.driverType = "rawblock") ∧
    StorageFactory "aufs" =
      .error ("hyperd can not support docker's backing storage: " ++ "aufs") :=
  ⟨(storageFactory_select_spec "overlay").1 (by decide),
   (storageFactory_select_spec "rawblock").1 (by decide),
   (storageFactory_select_spec "aufs").2 (by decide)⟩

/-- Claim C2: Overlay `PrepareContainer` returns the union-mount helper's
error unchanged (and no descriptor) on failure; on success its descriptor
has `Name = Source = "/" + mountId`, `Fstype = "dir"`, `Format = "vfs"`
and `ReadOnly` equal to the input flag. -/
theorem overlay_prepareContainer_spec (o : OverlayFsStorage) (e : Err)
    (mountId sharedDir : String) (readonly : Bool) (fs : FS) :
    (o.PrepareContainer (some e) mountId sharedDir readonly fs).1 = .error e ∧
    (o.PrepareContainer none mountId sharedDir readonly fs).1 =
      .ok { Name := "/" ++ mountId, Source := "/" ++ mountId,
            Fstype := "dir", Format := "vfs", ReadOnly := readonly } :=
  ⟨rfl, rfl⟩

/-- Claim C3: RawBlock `PrepareContainer` leaves the filesystem state
untouched and returns a descriptor with `Name = Source =
<root>/blocks/containerId`, `Fstype = "xfs"`, `Format = "raw"` and
`ReadOnly` equal to the input flag. -/
theorem rawblock_prepareContainer_descriptor (s : RawBlockStorage)
    (containerId sharedDir : String) (readonly : Bool) (fs : FS) :
    s.PrepareContainer containerId sharedDir readonly fs =
      (.ok { Name := joinPath (joinPath s.RootPath "blocks") containerId,
             Source := joinPath (joinPath s.RootPath "blocks") containerId,
             Fstype := "xfs", Format := "raw", ReadOnly := readonly }, fs) :=
  rfl

/-- Claim C4: for both backends and every oracle outcome, `InjectFile`
leaves the filesystem state exactly as it found it: the transient overlay
union mount at `<baseDir>/<mountId>/rootfs`, respectively the raw-block
attachment keyed by `(baseDir, mountId)`, is released on every exit
path. -/
theorem injectFile_no_residual_mount (o : OverlayFsStorage) (s : RawBlockStorage)
    (mountRes copyRes getRes putRes copyRes2 : Option Err)
    (mountId target baseDir : String) (perm uid gid : Nat) (fs : FS) :
    (o.InjectFile mountRes copyRes mountId target baseDir perm uid gid fs).2 = fs ∧
    (s.InjectFile getRes putRes copyRes2 mountId target baseDir perm uid gid fs).2 = fs := by
  rcases fs with ⟨m, d, a, i⟩
  constructor
  · cases mountRes with
    | some e => rfl
    | none =>
      simp [OverlayFsStorage.InjectFile, MountContainerToSharedDir, syscallUnmount,
        FsInjectFile]
  · cases getRes with
    | some e => rfl
    | none =>
      simp [RawBlockStorage.InjectFile, GetImage, PutImage, FsInjectFile]

/-- Counterexample for C5: with the image successfully attached and the
copy successful, a failure of the release step (`rawblock.PutImage`
reporting "device busy") is not returned to `InjectFile`'s caller: the
call reports success, because the Go source discards the deferred call's
return value. -/
theorem injectFile_release_error_discarded_cex :
    (RawBlockStorage.InjectFile { rootPath := "/rb" } none (some "device busy") none
        "c1" "/target" "/base" 420 0 0
        { mounts := [], dirs := [], attachments := [], images := [] }).1 = .ok () ∧
    (RawBlockStorage.InjectFile { rootPath := "/rb" } none (some "device busy") none
        "c1" "/target" "/base" 420 0 0
        { mounts := [], dirs := [], attachments := [], images := [] }).1 ≠
      .error "device busy" := by
  refine ⟨rfl, fun h => ?_⟩
  rw [show (RawBlockStorage.InjectFile { rootPath := "/rb" } none (some "device busy") none
        "c1" "/target" "/base" 420 0 0
        { mounts := [], dirs := [], attachments := [], images := [] }).1 =
      (Except.ok () : Except Err Unit) from rfl] at h
  exact Except.noConfusion h

/-- Amended C5: failures of the acquire step (union mount / image attach)
and of the copy step are returned to `InjectFile`'s caller untouched, as
are `CreateVolume`'s collaborator failures; but the release step's
failure (the deferred unmount / image detach) is discarded — the value
`InjectFile` returns never depends on the release outcome. -/
theorem injectFile_error_propagation_amended (o : OverlayFsStorage)
    (s : RawBlockStorage) (e : Err) (copyRes getRes putRes p1 p2 : Option Err)
    (volRes : Except Err String) (mountId target baseDir podId : String)
    (perm uid gid : Nat) (spec : UserVolume) (fs : FS) :
    (o.InjectFile (some e) copyRes mountId target baseDir perm uid gid fs).1 = .error e ∧
    (o.InjectFile none (some e) mountId target baseDir perm uid gid fs).1 = .error e ∧
    (s.InjectFile (some e) putRes copyRes mountId target baseDir perm uid gid fs).1 = .error e ∧
    (s.InjectFile none putRes (some e) mountId target baseDir perm uid gid fs).1 = .error e ∧
    (o.CreateVolume (.error e) podId spec).1 = .error e ∧
    ((s.CreateVolume (some e) podId spec fs).1).1 = .error e ∧
    (s.InjectFile getRes p1 copyRes mountId target baseDir perm uid gid fs).1 =
      (s.InjectFile getRes p2 copyRes mountId target baseDir perm uid gid fs).1 := by
  refine ⟨rfl, rfl, rfl, rfl, rfl, rfl, ?_⟩
  cases getRes <;> rfl

/-- Claim C6: a successful `CreateVolume` mutates the spec
deterministically: the Overlay backend sets `Source` to the path the
directory allocator returned, `Format = "vfs"`, `Fstype = "dir"`; the
RawBlock backend sets `Source = <root>/volumes/<podId>-<spec.Name>`,
`Fstype = "xfs"`, `Format = "raw"`, after recording a fresh raw image of
the fixed default size at that path. -/
theorem createVolume_success_mutation (o : OverlayFsStorage) (s : RawBlockStorage)
    (podId volName : String) (spec : UserVolume) (fs : FS) :
    o.CreateVolume (.ok volName) podId spec =
      (.ok (), { spec with Source := volName, Format := "vfs", Fstype := "dir" }) ∧
    s.CreateVolume none podId spec fs =
      ((.ok (), { spec with
          Source := joinPath (joinPath s.RootPath "volumes") (podId ++ "-" ++ spec.Name),
          Fstype := "xfs", Format := "raw" }),
       { fs with images :=
          (joinPath (joinPath s.RootPath "volumes") (podId ++ "-" ++ spec.Name), "xfs",
            DEFAULT_DM_VOL_SIZE) :: fs.images }) :=
  ⟨rfl, rfl⟩

/-- Claim C7: when `CreateVolume` fails, the passed spec is returned
entirely unmutated by both backends (and the raw-block image state is
also unchanged). -/
theorem createVolume_failure_spec_unchanged (o : OverlayFsStorage)
    (s : RawBlockStorage) (e1 e2 : Err) (podId : String) (spec : UserVolume)
    (fs : FS) :
    o.CreateVolume (.error e1) podId spec = (.error e1, spec) ∧
    s.CreateVolume (some e2) podId spec fs = ((.error e2, spec), fs) :=
  ⟨rfl, rfl⟩

/-- Claim C8: `RawBlockStorage.Init` propagates a directory-creation
failure unchanged; and when `<root>/volumes` is absent, two successive
successful `Init` calls both return success and leave `<root>/volumes`
present with mode 0700. -/
theorem rawblock_init_idempotent (s : RawBlockStorage) (e : Err) (fs : FS)
    (h : fs.dirs.lookup (joinPath s.RootPath "volumes") = none) :
    s.Init (some e) fs = (.error e, fs) ∧
    (s.Init none fs).1 = .ok () ∧
    (s.Init none (s.Init none fs).2).1 = .ok () ∧
    (s.Init none (s.Init none fs).2).2.dirs.lookup (joinPath s.RootPath "volumes")
      = some 0o700 := by
  refine ⟨rfl, ?_, ?_, ?_⟩ <;>
    simp [RawBlockStorage.Init, mkdirAll, h, List.lookup]

/-- Witness for C8: on an empty filesystem state, a failing `Init`
propagates the error, and two successful `Init` calls in a row leave
`<root>/volumes` recorded with mode 0700. -/
theorem rawblock_init_idempotent_witness :
    (RawBlockStorage.Init { rootPath := "/rb" } (some "disk full")
        { mounts := [], dirs := [], attachments := [], images := [] } =
      (.error "disk full",
        { mounts := [], dirs := [], attachments := [], images := [] })) ∧
    (RawBlockStorage.Init { rootPath := "/rb" } none
        (RawBlockStorage.Init { rootPath := "/rb" } none
          { mounts := [], dirs := [], attachments := [], images := [] }).2).2.dirs.lookup
        (joinPath "/rb" "volumes") = some 0o700 := by
  have hmain := rawblock_init_idempotent { rootPath := "/rb" } "disk full"
    { mounts := [], dirs := [], attachments := [], images := [] } (by decide)
  exact ⟨hmain.1, hmain.2.2.2⟩

/-- Claim C9: for the Overlay backend, when `<sharedDir>/<id>/rootfs` is
not already mounted, a successful `PrepareContainer` followed by
`CleanupContainer` succeeds and leaves no mount at that path, and a
second `CleanupContainer` with no intervening prepare fails with the
underlying unmount error, unchanged, leaving the state as it was. -/
theorem overlay_prepare_cleanup_roundtrip (o : OverlayFsStorage)
    (id sharedDir : String) (readonly : Bool) (fs : FS)
    (h : rootfsPath sharedDir id ∉ fs.mounts) :
    (o.CleanupContainer id sharedDir
        (o.PrepareContainer none id sharedDir readonly fs).2).1 = .ok () ∧
    rootfsPath sharedDir id ∉
      (o.CleanupContainer id sharedDir
        (o.PrepareContainer none id sharedDir readonly fs).2).2.mounts ∧
    ∃ e2, o.CleanupContainer id sharedDir
        (o.CleanupContainer id sharedDir
          (o.PrepareContainer none id sharedDir readonly fs).2).2 =
      (.error e2,
       (o.CleanupContainer id sharedDir
          (o.PrepareContainer none id sharedDir readonly fs).2).2) := by
  have hprep : (o.PrepareContainer none id sharedDir readonly fs).2 =
      { fs with mounts := rootfsPath sharedDir id :: fs.mounts } := rfl
  have hclean : o.CleanupContainer id sharedDir
      { fs with mounts := rootfsPath sharedDir id :: fs.mounts } = (.ok (), fs) := by
    rcases fs with ⟨m, d, a, i⟩
    simp [OverlayFsStorage.CleanupContainer, syscallUnmount]
  have hclean2 : o.CleanupContainer id sharedDir fs =
      (.error ("invalid argument: " ++ rootfsPath sharedDir id ++ " is not mounted"),
       fs) := by
    simp [OverlayFsStorage.CleanupContainer, syscallUnmount, h]
  rw [hprep, hclean]
  exact ⟨rfl, h, ⟨_, hclean2⟩⟩

/-- Witness for C9: round trip on an empty mount table with concrete
inputs. -/
theorem overlay_prepare_cleanup_roundtrip_witness :
    (OverlayFsStorage.CleanupContainer { rootPath := "/ov" } "c1" "/shared"
        (OverlayFsStorage.PrepareContainer { rootPath := "/ov" } none "c1" "/shared"
          false { mounts := [], dirs := [], attachments := [], images := [] }).2).1
      = .ok () :=
  (overlay_prepare_cleanup_roundtrip { rootPath := "/ov" } "c1" "/shared" false
    { mounts := [], dirs := [], attachments := [], images := [] } (by decide)).1

/-- Claim C10: RawBlock `PrepareContainer` is total and infallible: for
every input and every filesystem state (including states with no image
present) it returns a descriptor and no error, and the state is passed
through untouched. -/
theorem rawblock_prepareContainer_total (s : RawBlockStorage)
    (containerId sharedDir : String) (readonly : Bool) (fs : FS) :
    ∃ vol : VolumeDescription,
      s.PrepareContainer containerId sharedDir readonly fs = (.ok vol, fs) :=
  ⟨_, rfl⟩

end Hyperd
